import Mathlib

/-!
# netlog: connect correlation, socket handlers and probe lifecycle

A shallow embedding of `probes.c` (with the constants of `netlog.h` and
`whitelist.h`).  The handlers are state transformers over the module's own
mutable state (the `match_socket` table) together with a record of the calls
they make to their collaborators (`log_message`, `printk`, `sockfd_put`).
Everything a handler merely reads (the current task, kernel memory, the
outcome of collaborator calls) is gathered in an environment.
-/

namespace Netlog

/-! ## Constants -/

/-- Build switches of `netlog.h`: `PROBE_UDP`, `PROBE_CONNECTION_CLOSE`, `WHITELISTING`
(a switch is on when its value is non-zero). -/
structure Config where
  PROBE_UDP : Nat
  PROBE_CONNECTION_CLOSE : Nat
  WHITELISTING : Nat

/-- The values `netlog.h` gives the build switches: UDP off, close probing on, whitelisting on. -/
def netlog_h : Config := ⟨0, 1, 1⟩

def CONNECT_PROBE_FAILED : Int := -1
def ACCEPT_PROBE_FAILED : Int := -2
def CLOSE_PROBE_FAILED : Int := -3
def BIND_PROBE_FAILED : Int := -4
def LOG_FAILURE : Int := -5

/-- Address families and protocol numbers of the Linux socket headers. -/
def AF_INET : Nat := 2
def AF_INET6 : Nat := 10
def IPPROTO_TCP : Nat := 6
def IPPROTO_UDP : Nat := 17

def MODULE_NAME : String := "netlog: "

/-- The macro `WHITELIST_FAILED(status)` of `whitelist.h`: `status < 0`. -/
def WHITELIST_FAILED (status : Int) : Bool := decide (status < 0)

/-! ## Data model -/

/-- A `__be16` object, given by its two bytes in memory order (most significant first). -/
structure be16 where
  b0 : Nat
  b1 : Nat

/-- Network-to-host conversion of a 16-bit quantity: the number whose
big-endian representation is the two stored bytes. -/
def ntohs (x : be16) : Nat := (x.b0 % 256) * 256 + x.b1 % 256

/-- The fields of `struct sock` (seen through `inet_sk`) that the handlers read. -/
structure sock where
  sk_family : Nat
  sk_protocol : Nat
  inet_sport : be16
  inet_dport : be16

/-- The part of `struct socket` the handlers read: `sk` is `none` for a NULL pointer. -/
structure socket where
  sk : Option sock

/-- The fields of `struct task_struct` used: `pid`, `comm` and the (32-bit unsigned) uid
that `CURRENT_UID` yields. -/
structure task_struct where
  pid : Nat
  comm : String
  uid : Nat

/-- The fields of the `struct sockaddr` handed to bind: the family, the port
(`sin_port` and `sin6_port` lie at the same offset) and the raw address bytes. -/
structure sockaddr where
  sa_family : Nat
  sin_port : be16
  sa_data : List Nat

/-- What a handler reads but does not own.  A `struct socket *` is `none` (NULL)
or `some a` for an address `a`; `mem` dereferences it.  The functions stand for
the collaborators declared in `iputils.h`, `whitelist.h`, `logger.h` and the kernel:
each yields the value its C counterpart returns. -/
structure Env where
  current : task_struct
  mem : Nat → socket
  is_whitelisted : task_struct → Int
  get_local_ip : Nat → String
  get_remote_ip : Nat → String
  -- the pointer `sockfd_lookup(fd, &err)` returns and the value of `err` after the call
  sockfd_lookup : Int → Option Nat × Int
  -- the status `log_message` returns for a line
  log_message : String → Int
  -- the macro `LOG_FAILED` of `logger.h`
  LOG_FAILED : Int → Bool
  get_ip : sockaddr → String
  any_ip_address : String → Bool

/-- The module state and the effects of the handlers: the table `match_socket`
(indexed by pid; the kernel keeps every pid below `PID_MAX_LIMIT`), the lines passed to
`log_message`, the lines passed to `printk`, and the pointers passed to `sockfd_put`,
each list oldest first. -/
structure State where
  match_socket : Nat → Option Nat
  log : List String
  dmesg : List String
  put : List Nat

/-- State at module load: `match_socket` is `{NULL}`, nothing written yet. -/
def State.init : State := ⟨fun _ => none, [], [], []⟩

/-! ## Formatting -/

/-- The conversion `%d` of `printk`-style formatting applied to an `int`. -/
def fmt_d (i : Int) : String :=
  match i with
  | Int.ofNat n => Nat.repr n
  | Int.negSucc n => "-" ++ Nat.repr (n + 1)

/-- The `int` that `%d` reads when handed a 32-bit unsigned value. -/
def int_of_u32 (u : Nat) : Int :=
  if u % 4294967296 < 2147483648 then (u % 4294967296 : Nat) else (u % 4294967296 : Nat) - 4294967296

/-- A line `"%s[%d] <proto> %s:%d <dir> %s:%d (uid=%d)\n"`. -/
def fmt_conn (proto dir : String) (t : task_struct) (lip : String) (lport : Nat)
    (rip : String) (rport : Nat) : String :=
  t.comm ++ "[" ++ fmt_d t.pid ++ "] " ++ proto ++ " " ++ lip ++ ":" ++ fmt_d lport ++ " " ++ dir ++ " "
    ++ rip ++ ":" ++ fmt_d rport ++ " (uid=" ++ fmt_d (int_of_u32 t.uid) ++ ")\n"

/-- A line `"%s[%d] UDP bind (any IP address):%d (uid=%d)\n"`. -/
def fmt_bind_any (t : task_struct) (port : Nat) : String :=
  t.comm ++ "[" ++ fmt_d t.pid ++ "] UDP bind (any IP address):" ++ fmt_d port
    ++ " (uid=" ++ fmt_d (int_of_u32 t.uid) ++ ")\n"

/-- A line `"%s[%d] UDP bind %s:%d (uid=%d)\n"`. -/
def fmt_bind_ip (t : task_struct) (ip : String) (port : Nat) : String :=
  t.comm ++ "[" ++ fmt_d t.pid ++ "] UDP bind " ++ ip ++ ":" ++ fmt_d port
    ++ " (uid=" ++ fmt_d (int_of_u32 t.uid) ++ ")\n"

def KERN_ERR : String := "<3>"
def KERN_INFO : String := "<6>"

/-! ## Event handlers -/

/-- The statement pair that follows every record in `probes.c`:
`log_status = log_message(line); if(LOG_FAILED(log_status)) printk(KERN_ERR MODULE_NAME "Failed to log message\n");`. -/
def log_and_report (env : Env) (line : String) (s : State) : State :=
  let log_status := env.log_message line
  let s1 : State := { s with log := s.log ++ [line] }
  if env.LOG_FAILED log_status then
    { s1 with dmesg := s1.dmesg ++ [KERN_ERR ++ MODULE_NAME ++ "Failed to log message\n"] }
  else s1

/-- The test `#if WHITELISTING ... if(is_whitelisted(current))`. -/
def whitelisted_here (cfg : Config) (env : Env) : Bool :=
  decide (cfg.WHITELISTING ≠ 0) && decide (env.is_whitelisted env.current ≠ 0)

/-- The test `(sk_family != AF_INET && sk_family != AF_INET6) || sk_protocol != proto`. -/
def wrong_family_or_protocol (sk : sock) (proto : Nat) : Bool :=
  (decide (sk.sk_family ≠ AF_INET) && decide (sk.sk_family ≠ AF_INET6)) || decide (sk.sk_protocol ≠ proto)

/-- Entry probe of `inet_stream_connect`: `match_socket[current->pid] = sock`. -/
def netlog_inet_stream_connect (env : Env) (sock : Option Nat) (s : State) : Int × State :=
  (0, { s with match_socket := Function.update s.match_socket env.current.pid sock })

/-- Return probe of `inet_stream_connect`. -/
def post_connect (cfg : Config) (env : Env) (s : State) : Int × State :=
  let out (t : State) : Int × State :=
    (0, { t with match_socket := Function.update t.match_socket env.current.pid none })
  match s.match_socket env.current.pid with
  | none => out s
  | some a =>
    match (env.mem a).sk with
    | none => out s
    | some sk =>
      if wrong_family_or_protocol sk IPPROTO_TCP then out s
      else if whitelisted_here cfg env then out s
      else
        out (log_and_report env
          (fmt_conn "TCP" "->" env.current (env.get_local_ip a) (ntohs sk.inet_sport)
            (env.get_remote_ip a) (ntohs sk.inet_dport)) s)

/-- The label `out:` of the descriptor handlers: `if(sock != NULL) sockfd_put(sock);` and `return 0`. -/
def put_and_return (sock : Option Nat) (t : State) : Int × State :=
  match sock with
  | some a => (0, { t with put := t.put ++ [a] })
  | none => (0, t)

/-- Return probe of the accept system call; `regs_return_value` is the descriptor returned. -/
def post_accept (cfg : Config) (env : Env) (regs_return_value : Int) (s : State) : Int × State :=
  let sock := (env.sockfd_lookup regs_return_value).1
  let err := (env.sockfd_lookup regs_return_value).2
  match sock with
  | none => put_and_return sock s
  | some a =>
    match (env.mem a).sk with
    | none => put_and_return sock s
    | some sk =>
      if err < 0 then put_and_return sock s
      else if wrong_family_or_protocol sk IPPROTO_TCP then put_and_return sock s
      else if whitelisted_here cfg env then put_and_return sock s
      else
        put_and_return sock (log_and_report env
          (fmt_conn "TCP" "<-" env.current (env.get_local_ip a) (ntohs sk.inet_sport)
            (env.get_remote_ip a) (ntohs sk.inet_dport)) s)

/-- Entry probe of `sys_close`; the `unsigned int` descriptor is converted to the `int` that
`sockfd_lookup` takes.  With `PROBE_UDP` off the final `else goto out` belongs to the
TCP test; with it on, the UDP test follows the TCP block and the `else` belongs to the UDP test. -/
def netlog_sys_close (cfg : Config) (env : Env) (fd : Nat) (s : State) : Int × State :=
  let sock := (env.sockfd_lookup (int_of_u32 fd)).1
  let err := (env.sockfd_lookup (int_of_u32 fd)).2
  match sock with
  | none => put_and_return sock s
  | some a =>
    match (env.mem a).sk with
    | none => put_and_return sock s
    | some sk =>
      if err < 0 then put_and_return sock s
      else
        let close_line (proto : String) : String :=
          fmt_conn proto "<->" env.current (env.get_local_ip a) (ntohs sk.inet_sport)
            (env.get_remote_ip a) (ntohs sk.inet_dport)
        -- the TCP block: `true` when it ends in `goto out`
        let tcp : Bool × State :=
          if sk.sk_protocol = IPPROTO_TCP ∧ ntohs sk.inet_dport ≠ 0 then
            if whitelisted_here cfg env then (true, s)
            else (false, log_and_report env (close_line "TCP") s)
          else if cfg.PROBE_UDP ≠ 0 then (false, s)
          else (true, s)
        if tcp.1 then put_and_return sock tcp.2
        else if cfg.PROBE_UDP ≠ 0 then
          if sk.sk_protocol = IPPROTO_UDP ∧ ntohs sk.inet_dport ≠ 0 then
            if whitelisted_here cfg env then put_and_return sock tcp.2
            else put_and_return sock (log_and_report env (close_line "UDP") tcp.2)
          else put_and_return sock tcp.2
        else put_and_return sock tcp.2

/-- Entry probe of `sys_bind` (compiled when `PROBE_UDP` is on). -/
def netlog_sys_bind (cfg : Config) (env : Env) (sockfd : Int) (addr : sockaddr) (s : State) :
    Int × State :=
  let sock := (env.sockfd_lookup sockfd).1
  let err := (env.sockfd_lookup sockfd).2
  match sock with
  | none => put_and_return sock s
  | some a =>
    match (env.mem a).sk with
    | none => put_and_return sock s
    | some sk =>
      if err < 0 then put_and_return sock s
      else if wrong_family_or_protocol sk IPPROTO_UDP then put_and_return sock s
      else if whitelisted_here cfg env then put_and_return sock s
      else
        let ip := env.get_ip addr
        if env.any_ip_address ip then
          put_and_return sock (log_and_report env (fmt_bind_any env.current (ntohs addr.sin_port)) s)
        else
          put_and_return sock (log_and_report env (fmt_bind_ip env.current ip (ntohs addr.sin_port)) s)

/-- The two probe events of `inet_stream_connect`: the entry probe with its socket argument,
and the return probe. -/
inductive ConnectEvent where
  | entry (sock : Option Nat)
  | ret

/-- Delivery of one connect probe event, in the environment of the context that raised it. -/
def deliver (cfg : Config) (s : State) (ev : Env × ConnectEvent) : State :=
  match ev.2 with
  | ConnectEvent.entry sock => (netlog_inet_stream_connect ev.1 sock s).2
  | ConnectEvent.ret => (post_connect cfg ev.1 s).2

/-- Delivery of a finite sequence of connect probe events, first to last. -/
def deliver_all (cfg : Config) (evs : List (Env × ConnectEvent)) (s : State) : State :=
  evs.foldl (deliver cfg) s

/-! ## Probe lifecycle -/

/-- The probe objects defined in `probes.c`. -/
inductive Probe where
  | connect_jprobe
  | connect_kretprobe
  | accept_kretprobe
  | tcp_close_jprobe
  | bind_jprobe
  deriving DecidableEq

/-- The calls `plant_probes` and `netlog_exit` make to their collaborators. -/
inductive Call where
  | init_logger (tag : String)
  | destroy_logger
  | register_jprobe (p : Probe)
  | register_kretprobe (p : Probe)
  | unregister_jprobe (p : Probe)
  | unregister_kretprobe (p : Probe)
  | whitelist (path : String)
  deriving DecidableEq

/-- Outcomes of the collaborator calls of one run of `plant_probes`, and the compiled-in
whitelist (`procs_to_whitelist`, of `NO_WHITELISTS` entries). -/
structure Boot where
  init_logger : Int
  LOG_FAILED : Int → Bool
  -- the status `register_jprobe` / `register_kretprobe` returns for a probe
  register : Probe → Int
  whitelist : String → Int
  procs_to_whitelist : List String

/-- The state the lifecycle manager acts on: the probes currently installed in the kernel,
whether the logging facility is up, and the collaborator calls and `printk` lines so far
(oldest first). -/
structure Module where
  planted : List Probe
  logger : Bool
  calls : List Call
  dmesg : List String

/-- State before the module is loaded. -/
def Module.init : Module := ⟨[], false, [], []⟩

def printk (line : String) (m : Module) : Module :=
  { m with dmesg := m.dmesg ++ [line] }

/-- Modelled from the spec: `init_logger` of `logger.h` (section 6, `init(tag) -> status`);
the facility is up afterwards unless the status is a failure. -/
def init_logger (b : Boot) (tag : String) (m : Module) : Int × Module :=
  (b.init_logger,
    { m with calls := m.calls ++ [Call.init_logger tag],
             logger := if b.LOG_FAILED b.init_logger then m.logger else true })

/-- Modelled from the spec: `destroy_logger` of `logger.h` (section 6, `destroy()`). -/
def destroy_logger (m : Module) : Module :=
  { m with calls := m.calls ++ [Call.destroy_logger], logger := false }

/-- Modelled from the spec: the kernel's `register_jprobe` (section 6: a failure to register
yields a negative status); on any other status the probe is installed. -/
def register_jprobe (b : Boot) (p : Probe) (m : Module) : Int × Module :=
  (b.register p,
    { m with calls := m.calls ++ [Call.register_jprobe p],
             planted := if b.register p < 0 then m.planted else p :: m.planted })

/-- Modelled from the spec: the kernel's `register_kretprobe`, as `register_jprobe`. -/
def register_kretprobe (b : Boot) (p : Probe) (m : Module) : Int × Module :=
  (b.register p,
    { m with calls := m.calls ++ [Call.register_kretprobe p],
             planted := if b.register p < 0 then m.planted else p :: m.planted })

/-- Modelled from the spec: the kernel's `unregister_jprobe` (section 4.5: unregistering a
point that is not registered is tolerated). -/
def unregister_jprobe (p : Probe) (m : Module) : Module :=
  { m with calls := m.calls ++ [Call.unregister_jprobe p],
           planted := m.planted.filter (fun q => decide (q ≠ p)) }

/-- Modelled from the spec: the kernel's `unregister_kretprobe`, as `unregister_jprobe`. -/
def unregister_kretprobe (p : Probe) (m : Module) : Module :=
  { m with calls := m.calls ++ [Call.unregister_kretprobe p],
           planted := m.planted.filter (fun q => decide (q ≠ p)) }

/-- Modelled from the spec: `whitelist` of `whitelist.h`, seen from `plant_probes`: a call and
its status. -/
def whitelist (b : Boot) (path : String) (m : Module) : Int × Module :=
  (b.whitelist path, { m with calls := m.calls ++ [Call.whitelist path] })

def unplant_all (cfg : Config) (m : Module) : Module :=
  let m := unregister_jprobe Probe.connect_jprobe m
  let m := printk (KERN_INFO ++ MODULE_NAME ++ "connect pre probe unplanted\n") m
  let m := unregister_kretprobe Probe.connect_kretprobe m
  let m := printk (KERN_INFO ++ MODULE_NAME ++ "connect post probe unplanted\n") m
  let m := unregister_kretprobe Probe.accept_kretprobe m
  let m := printk (KERN_INFO ++ MODULE_NAME ++ "accept probe unplanted\n") m
  let m :=
    if cfg.PROBE_CONNECTION_CLOSE ≠ 0 then
      printk (KERN_INFO ++ MODULE_NAME ++ "inet_shutdown probe unplanted\n")
        (unregister_jprobe Probe.tcp_close_jprobe m)
    else m
  let m :=
    if cfg.PROBE_UDP ≠ 0 then
      printk (KERN_INFO ++ MODULE_NAME ++ "bind probe unplanted\n")
        (unregister_jprobe Probe.bind_jprobe m)
    else m
  printk (KERN_INFO ++ MODULE_NAME ++ "Probes unplanted\n") m

def netlog_exit (cfg : Config) (m : Module) : Module :=
  let m := unplant_all cfg m
  let m := destroy_logger m
  printk (KERN_INFO ++ MODULE_NAME ++ "Logging facility destroyed\n") m

/-- One round of the whitelisting loop of `plant_probes`. -/
def whitelist_one (b : Boot) (m : Module) (path : String) : Module :=
  let r := whitelist b path m
  if WHITELIST_FAILED r.1 then
    printk (KERN_ERR ++ MODULE_NAME ++ "Failed to whitelist " ++ path ++ "\n") r.2
  else
    printk (KERN_INFO ++ MODULE_NAME ++ "Whitelisted " ++ path ++ "\n") r.2

def plant_probes (cfg : Config) (b : Boot) (m0 : Module) : Int × Module :=
  let r := init_logger b MODULE_NAME m0
  if b.LOG_FAILED r.1 then
    (LOG_FAILURE, printk (KERN_ERR ++ MODULE_NAME ++ "Failed to initialize logging facility\n") r.2)
  else
    let m := printk (KERN_INFO ++ MODULE_NAME ++ "Initialized logging facility\n") r.2
    let r := register_jprobe b Probe.connect_jprobe m
    if r.1 < 0 then
      (CONNECT_PROBE_FAILED,
        netlog_exit cfg (printk (KERN_ERR ++ MODULE_NAME ++ "Failed to plant connect pre handler\n") r.2))
    else
      let r := register_kretprobe b Probe.connect_kretprobe r.2
      if r.1 < 0 then
        (CONNECT_PROBE_FAILED,
          netlog_exit cfg (printk (KERN_ERR ++ MODULE_NAME ++ "Failed to plant connect post handler\n") r.2))
      else
        let r := register_kretprobe b Probe.accept_kretprobe r.2
        if r.1 < 0 then
          (ACCEPT_PROBE_FAILED,
            netlog_exit cfg (printk (KERN_ERR ++ MODULE_NAME ++ "Failed to plant accept post handler\n") r.2))
        else
          -- #if PROBE_CONNECTION_CLOSE
          let r := if cfg.PROBE_CONNECTION_CLOSE ≠ 0 then register_jprobe b Probe.tcp_close_jprobe r.2 else r
          if cfg.PROBE_CONNECTION_CLOSE ≠ 0 ∧ r.1 < 0 then
            (CLOSE_PROBE_FAILED,
              netlog_exit cfg (printk (KERN_ERR ++ MODULE_NAME ++ "Failed to plant close pre handler\n") r.2))
          else
            -- #if PROBE_UDP
            let r := if cfg.PROBE_UDP ≠ 0 then register_jprobe b Probe.bind_jprobe r.2 else r
            if cfg.PROBE_UDP ≠ 0 ∧ r.1 < 0 then
              (BIND_PROBE_FAILED,
                netlog_exit cfg (printk (KERN_ERR ++ MODULE_NAME ++ "Failed to plant bind pre handler\n") r.2))
            else
              let m := printk (KERN_INFO ++ MODULE_NAME ++ "All probes planted\n") r.2
              -- #if WHITELISTING
              let m := if cfg.WHITELISTING ≠ 0 then b.procs_to_whitelist.foldl (whitelist_one b) m else m
              (0, m)

/-! ## Vocabulary of the lifecycle theorems

Read off `plant_probes`: the order in which it registers the probes and the value it returns
after each failed registration.  The theorems relate `plant_probes` itself to these. -/

/-- The registration stages of `plant_probes`, in its order, for the probes compiled in. -/
def stages (cfg : Config) : List Probe :=
  [Probe.connect_jprobe, Probe.connect_kretprobe, Probe.accept_kretprobe]
    ++ (if cfg.PROBE_CONNECTION_CLOSE ≠ 0 then [Probe.tcp_close_jprobe] else [])
    ++ (if cfg.PROBE_UDP ≠ 0 then [Probe.bind_jprobe] else [])

/-- The value `plant_probes` returns after the failed registration of a probe. -/
def failure_code (p : Probe) : Int :=
  match p with
  | Probe.connect_jprobe => CONNECT_PROBE_FAILED
  | Probe.connect_kretprobe => CONNECT_PROBE_FAILED
  | Probe.accept_kretprobe => ACCEPT_PROBE_FAILED
  | Probe.tcp_close_jprobe => CLOSE_PROBE_FAILED
  | Probe.bind_jprobe => BIND_PROBE_FAILED

/-- The probes of the registration calls in a list of collaborator calls, in order. -/
def registrations (calls : List Call) : List Probe :=
  calls.filterMap (fun c =>
    match c with
    | Call.register_jprobe p => some p
    | Call.register_kretprobe p => some p
    | _ => none)

/-! ## Concrete scenarios -/

/-- Scenario A of the specification: `curl` (pid 4321, uid 1000) and a TCP/IPv4 socket from
`10.0.0.5:51000` to `93.184.216.34:443` (51000 = 199 * 256 + 56, 443 = 1 * 256 + 187); the
process is not whitelisted and every descriptor resolves to the socket at address 7. -/
def curl_env : Env where
  current := ⟨4321, "curl", 1000⟩
  mem := fun _ => ⟨some ⟨AF_INET, IPPROTO_TCP, ⟨199, 56⟩, ⟨1, 187⟩⟩⟩
  is_whitelisted := fun _ => 0
  get_local_ip := fun _ => "10.0.0.5"
  get_remote_ip := fun _ => "93.184.216.34"
  sockfd_lookup := fun _ => (some 7, 0)
  log_message := fun _ => 0
  LOG_FAILED := fun st => decide (st < 0)
  get_ip := fun _ => "0.0.0.0"
  any_ip_address := fun ip => decide (ip = "0.0.0.0")

/-- The same process as `curl_env`, now whitelisted (`is_whitelisted` yields `WHITELISTED`). -/
def curl_whitelisted_env : Env := { curl_env with is_whitelisted := fun _ => 1 }

/-- Scenario D of the specification: `ssh` (pid 812, uid 1000) closes descriptor 3, a TCP
socket from `10.0.0.5:40022` to `203.0.113.9:22` (40022 = 156 * 256 + 86). -/
def ssh_env : Env where
  current := ⟨812, "ssh", 1000⟩
  mem := fun _ => ⟨some ⟨AF_INET, IPPROTO_TCP, ⟨156, 86⟩, ⟨0, 22⟩⟩⟩
  is_whitelisted := fun _ => 0
  get_local_ip := fun _ => "10.0.0.5"
  get_remote_ip := fun _ => "203.0.113.9"
  sockfd_lookup := fun fd => if fd = 3 then (some 7, 0) else (none, -9)
  log_message := fun _ => 0
  LOG_FAILED := fun st => decide (st < 0)
  get_ip := fun _ => "0.0.0.0"
  any_ip_address := fun ip => decide (ip = "0.0.0.0")

/-- The process of `curl_env` with a TCP/IPv4 socket at address 7 whose remote endpoint is
not set: remote port bytes `0, 0`, remote address text `0.0.0.0`. -/
def unconnected_env : Env :=
  { curl_env with
    mem := fun _ => ⟨some ⟨AF_INET, IPPROTO_TCP, ⟨199, 56⟩, ⟨0, 0⟩⟩⟩
    get_remote_ip := fun _ => "0.0.0.0" }

/-- A Bluetooth HIDP socket (family `AF_BLUETOOTH` = 31, protocol `BTPROTO_HIDP` = 6, the
number of `IPPROTO_TCP`) at address 7, closed by `bluetoothd` (pid 950, uid 0) through
descriptor 3; the port fields are the bytes `inet_sk` finds at their offsets. -/
def hidp_env : Env where
  current := ⟨950, "bluetoothd", 0⟩
  mem := fun _ => ⟨some ⟨31, 6, ⟨0, 17⟩, ⟨0, 19⟩⟩⟩
  is_whitelisted := fun _ => 0
  get_local_ip := fun _ => "0.0.0.0"
  get_remote_ip := fun _ => "0.0.0.0"
  sockfd_lookup := fun _ => (some 7, 0)
  log_message := fun _ => 0
  LOG_FAILED := fun st => decide (st < 0)
  get_ip := fun _ => "0.0.0.0"
  any_ip_address := fun ip => decide (ip = "0.0.0.0")

/-- A start-up in which the logging facility comes up and every registration succeeds except
that of the accept probe, which yields `-EBUSY`; one path is compiled in for whitelisting. -/
def accept_busy : Boot where
  init_logger := 0
  LOG_FAILED := fun st => decide (st < 0)
  register := fun p => if p = Probe.accept_kretprobe then -16 else 0
  whitelist := fun _ => 0
  procs_to_whitelist := ["/usr/sbin/sshd"]

/-! ## Theorems -/

theorem log_and_report_log (env : Env) (line : String) (s : State) :
    (log_and_report env line s).log = s.log ++ [line] := by
  simp only [log_and_report]
  split <;> rfl

theorem log_and_report_match_socket (env : Env) (line : String) (s : State) :
    (log_and_report env line s).match_socket = s.match_socket := by
  simp only [log_and_report]
  split <;> rfl

theorem log_and_report_put (env : Env) (line : String) (s : State) :
    (log_and_report env line s).put = s.put := by
  simp only [log_and_report]
  split <;> rfl

theorem wrong_family_or_protocol_false (sk : sock) (proto : Nat)
    (hfam : sk.sk_family = AF_INET ∨ sk.sk_family = AF_INET6) (hproto : sk.sk_protocol = proto) :
    wrong_family_or_protocol sk proto = false := by
  unfold wrong_family_or_protocol
  rcases hfam with h | h <;> simp [h, hproto]

theorem udp_ne_tcp : IPPROTO_UDP ≠ IPPROTO_TCP := by decide

theorem whitelisted_here_false (cfg : Config) (env : Env)
    (h : env.is_whitelisted env.current = 0) : whitelisted_here cfg env = false := by
  simp [whitelisted_here, h]

theorem whitelisted_here_true (cfg : Config) (env : Env) (hcfg : cfg.WHITELISTING ≠ 0)
    (h : env.is_whitelisted env.current ≠ 0) : whitelisted_here cfg env = true := by
  simp [whitelisted_here, h, hcfg]

/-- C1: an entry event for a socket with non-null `sk`, family `AF_INET` or `AF_INET6` and
protocol TCP, followed by the return event in the same context, with the context not
whitelisted, makes `post_connect` pass exactly one line to `log_message`, the line
`"<comm>[<pid>] TCP <local_ip>:<local_port> -> <remote_ip>:<remote_port> (uid=<uid>)\n"`
with the ports in host byte order. -/
theorem post_connect_logs_once (cfg : Config) (e0 e : Env) (a : Nat) (sk : sock) (s : State)
    (hctx : e0.current.pid = e.current.pid)
    (hsk : (e.mem a).sk = some sk)
    (hfam : sk.sk_family = AF_INET ∨ sk.sk_family = AF_INET6)
    (hproto : sk.sk_protocol = IPPROTO_TCP)
    (hwl : e.is_whitelisted e.current = 0) :
    (post_connect cfg e (netlog_inet_stream_connect e0 (some a) s).2).2.log
      = s.log ++ [e.current.comm ++ "[" ++ fmt_d e.current.pid ++ "] TCP "
          ++ e.get_local_ip a ++ ":" ++ fmt_d (ntohs sk.inet_sport) ++ " -> "
          ++ e.get_remote_ip a ++ ":" ++ fmt_d (ntohs sk.inet_dport)
          ++ " (uid=" ++ fmt_d (int_of_u32 e.current.uid) ++ ")\n"] := by
  have hw := wrong_family_or_protocol_false sk IPPROTO_TCP hfam hproto
  have hl := whitelisted_here_false cfg e hwl
  simp [post_connect, netlog_inet_stream_connect, hctx, hsk, hw, hl, log_and_report_log, fmt_conn,
    String.append_assoc]

/-- Scenario A: `curl[4321]` connecting from `10.0.0.5:51000` to `93.184.216.34:443`. -/
theorem post_connect_logs_once_witness :
    (post_connect netlog_h curl_env (netlog_inet_stream_connect curl_env (some 7) State.init).2).2.log
      = ["curl[4321] TCP 10.0.0.5:51000 -> 93.184.216.34:443 (uid=1000)\n"] :=
  (post_connect_logs_once netlog_h curl_env curl_env 7 ⟨AF_INET, IPPROTO_TCP, ⟨199, 56⟩, ⟨1, 187⟩⟩
    State.init rfl rfl (Or.inl rfl) rfl rfl).trans (by decide)

theorem post_connect_slot (cfg : Config) (e : Env) (s : State) :
    (post_connect cfg e s).2.match_socket e.current.pid = none := by
  simp only [post_connect]
  split
  · simp
  · split
    · simp
    · split
      · simp
      · split <;> simp

theorem post_connect_empty (cfg : Config) (e : Env) (s : State)
    (h : s.match_socket e.current.pid = none) : post_connect cfg e s = (0, s) := by
  have hs : Function.update s.match_socket e.current.pid none = s.match_socket := by
    rw [← h]
    exact Function.update_eq_self _ _
  simp [post_connect, h, hs]

/-- C2: whatever the table holds and whatever the socket checks, the whitelist check and the
log write yield, the slot of the current context is NULL after `post_connect`; a second
`post_connect` in the same context with no entry event in between writes no record. -/
theorem post_connect_clears_slot (cfg cfg2 : Config) (e e2 : Env) (s : State)
    (hctx : e2.current.pid = e.current.pid) :
    (post_connect cfg e s).2.match_socket e.current.pid = none
      ∧ (post_connect cfg2 e2 (post_connect cfg e s).2).2.log = (post_connect cfg e s).2.log := by
  refine ⟨post_connect_slot cfg e s, ?_⟩
  rw [post_connect_empty cfg2 e2 _ (by rw [hctx]; exact post_connect_slot cfg e s)]

/-- The slot of `curl` is NULL after its entry and return events, and a second return event
leaves the single record written by the first. -/
theorem post_connect_clears_slot_witness :
    (post_connect netlog_h curl_env (netlog_inet_stream_connect curl_env (some 7) State.init).2).2.match_socket
        4321 = none
      ∧ (post_connect netlog_h curl_env
          (post_connect netlog_h curl_env
            (netlog_inet_stream_connect curl_env (some 7) State.init).2).2).2.log
        = (post_connect netlog_h curl_env (netlog_inet_stream_connect curl_env (some 7) State.init).2).2.log :=
  post_connect_clears_slot netlog_h netlog_h curl_env curl_env
    (netlog_inet_stream_connect curl_env (some 7) State.init).2 rfl

/-- C3: when the slot of the current context is empty, `post_connect` returns 0, writes no
record, leaves the whole table unchanged, and its result does not depend on the contents of
any socket (none is dereferenced). -/
theorem post_connect_without_entry (cfg : Config) (e : Env) (s : State)
    (h : s.match_socket e.current.pid = none) :
    (post_connect cfg e s).1 = 0
      ∧ (post_connect cfg e s).2.log = s.log
      ∧ (post_connect cfg e s).2.match_socket = s.match_socket
      ∧ ∀ mem2 : Nat → socket,
          post_connect cfg { e with mem := mem2 } s = post_connect cfg e s := by
  rw [post_connect_empty cfg e s h]
  refine ⟨rfl, rfl, rfl, ?_⟩
  intro mem2
  exact post_connect_empty cfg { e with mem := mem2 } s h

/-- A return event for `curl` right after module load: no record, table still all NULL. -/
theorem post_connect_without_entry_witness :
    (post_connect netlog_h curl_env State.init).1 = 0
      ∧ (post_connect netlog_h curl_env State.init).2.log = []
      ∧ (post_connect netlog_h curl_env State.init).2.match_socket = State.init.match_socket
      ∧ ∀ mem2 : Nat → socket,
          post_connect netlog_h { curl_env with mem := mem2 } State.init
            = post_connect netlog_h curl_env State.init :=
  post_connect_without_entry netlog_h curl_env State.init rfl

theorem put_and_return_log (sock : Option Nat) (t : State) :
    (put_and_return sock t).2.log = t.log := by
  cases sock <;> rfl

theorem put_and_return_ret (sock : Option Nat) (t : State) :
    (put_and_return sock t).1 = 0 := by
  cases sock <;> rfl

theorem put_and_return_put (sock : Option Nat) (t : State) :
    (put_and_return sock t).2.put = t.put ++ sock.toList := by
  cases sock <;> simp [put_and_return]

theorem put_and_return_match_socket (sock : Option Nat) (t : State) :
    (put_and_return sock t).2.match_socket = t.match_socket := by
  cases sock <;> rfl

/-- C4: when `is_whitelisted(current)` holds (whitelisting compiled in), none of
`post_connect`, `post_accept`, `netlog_sys_close` and `netlog_sys_bind` passes a line to
`log_message`, whatever the table, the descriptor and the socket are. -/
theorem whitelisted_writes_nothing (cfg : Config) (e : Env) (s : State)
    (hcfg : cfg.WHITELISTING ≠ 0) (hwl : e.is_whitelisted e.current ≠ 0) :
    (post_connect cfg e s).2.log = s.log
      ∧ (∀ fd : Int, (post_accept cfg e fd s).2.log = s.log)
      ∧ (∀ fd : Nat, (netlog_sys_close cfg e fd s).2.log = s.log)
      ∧ (∀ (fd : Int) (addr : sockaddr), (netlog_sys_bind cfg e fd addr s).2.log = s.log) := by
  have hw := whitelisted_here_true cfg e hcfg hwl
  refine ⟨?_, ?_, ?_, ?_⟩
  · simp only [post_connect, hw]
    split
    · rfl
    · split
      · rfl
      · split <;> rfl
  · intro fd
    simp only [post_accept, hw]
    split
    · simp [put_and_return_log]
    · split
      · simp [put_and_return_log]
      · split
        · simp [put_and_return_log]
        · split <;> simp [put_and_return_log]
  · intro fd
    cases h1 : (e.sockfd_lookup (int_of_u32 fd)).1 with
    | none => simp [netlog_sys_close, h1, put_and_return_log]
    | some a =>
      cases h2 : (e.mem a).sk with
      | none => simp [netlog_sys_close, h1, h2, put_and_return_log]
      | some sk =>
        by_cases he : (e.sockfd_lookup (int_of_u32 fd)).2 < 0
        · simp [netlog_sys_close, h1, h2, he, put_and_return_log]
        · by_cases hu : cfg.PROBE_UDP = 0 <;>
            by_cases ht : sk.sk_protocol = IPPROTO_TCP ∧ ntohs sk.inet_dport ≠ 0 <;>
            by_cases hd : sk.sk_protocol = IPPROTO_UDP ∧ ntohs sk.inet_dport ≠ 0 <;>
            simp [netlog_sys_close, h1, h2, he, hw, hu, ht, hd, put_and_return_log, udp_ne_tcp]
  · intro fd addr
    simp only [netlog_sys_bind, hw]
    split
    · simp [put_and_return_log]
    · split
      · simp [put_and_return_log]
      · split
        · simp [put_and_return_log]
        · split <;> simp [put_and_return_log]

/-- A whitelisted `curl`: its connect, accept, close and bind events write nothing. -/
theorem whitelisted_writes_nothing_witness :
    (post_connect netlog_h curl_whitelisted_env
        (netlog_inet_stream_connect curl_whitelisted_env (some 7) State.init).2).2.log = []
      ∧ (∀ fd : Int, (post_accept netlog_h curl_whitelisted_env fd State.init).2.log = [])
      ∧ (∀ fd : Nat, (netlog_sys_close netlog_h curl_whitelisted_env fd State.init).2.log = [])
      ∧ (∀ (fd : Int) (addr : sockaddr),
          (netlog_sys_bind netlog_h curl_whitelisted_env fd addr State.init).2.log = []) :=
  whitelisted_writes_nothing netlog_h curl_whitelisted_env
    (netlog_inet_stream_connect curl_whitelisted_env (some 7) State.init).2 (by decide) (by decide)

theorem netlog_sys_close_log (cfg : Config) (e : Env) (fd a : Nat) (sk : sock) (s : State)
    (h1 : (e.sockfd_lookup (int_of_u32 fd)).1 = some a) (h2 : (e.mem a).sk = some sk)
    (he : ¬ (e.sockfd_lookup (int_of_u32 fd)).2 < 0) :
    (netlog_sys_close cfg e fd s).2.log
      = if sk.sk_protocol = IPPROTO_TCP ∧ ntohs sk.inet_dport ≠ 0 then
          if whitelisted_here cfg e then s.log
          else s.log ++ [fmt_conn "TCP" "<->" e.current (e.get_local_ip a) (ntohs sk.inet_sport)
            (e.get_remote_ip a) (ntohs sk.inet_dport)]
        else if cfg.PROBE_UDP ≠ 0 ∧ sk.sk_protocol = IPPROTO_UDP ∧ ntohs sk.inet_dport ≠ 0 then
          if whitelisted_here cfg e then s.log
          else s.log ++ [fmt_conn "UDP" "<->" e.current (e.get_local_ip a) (ntohs sk.inet_sport)
            (e.get_remote_ip a) (ntohs sk.inet_dport)]
        else s.log := by
  by_cases hu : cfg.PROBE_UDP = 0 <;>
    by_cases ht : sk.sk_protocol = IPPROTO_TCP ∧ ntohs sk.inet_dport ≠ 0 <;>
    by_cases hd : sk.sk_protocol = IPPROTO_UDP ∧ ntohs sk.inet_dport ≠ 0 <;>
    by_cases hw : whitelisted_here cfg e = true <;>
    simp [netlog_sys_close, h1, h2, he, hw, hu, ht, hd, put_and_return_log, udp_ne_tcp,
      udp_ne_tcp.symm, log_and_report_log]

theorem netlog_sys_close_silent (cfg : Config) (e : Env) (fd : Nat) (s : State)
    (h : (e.sockfd_lookup (int_of_u32 fd)).1 = none ∨ (e.sockfd_lookup (int_of_u32 fd)).2 < 0
      ∨ ∃ a, (e.sockfd_lookup (int_of_u32 fd)).1 = some a ∧ (e.mem a).sk = none) :
    (netlog_sys_close cfg e fd s).2.log = s.log := by
  cases h1 : (e.sockfd_lookup (int_of_u32 fd)).1 with
  | none => simp [netlog_sys_close, h1, put_and_return_log]
  | some a =>
    cases h2 : (e.mem a).sk with
    | none => simp [netlog_sys_close, h1, h2, put_and_return_log]
    | some sk =>
      rcases h with h | h | ⟨b, hb, hbn⟩
      · simp [h1] at h
      · simp [netlog_sys_close, h1, h2, h, put_and_return_log]
      · rw [h1] at hb
        cases hb
        simp [h2] at hbn

theorem netlog_sys_close_ret_put (cfg : Config) (e : Env) (fd : Nat) (s : State) :
    (netlog_sys_close cfg e fd s).1 = 0
      ∧ (netlog_sys_close cfg e fd s).2.put = s.put ++ (e.sockfd_lookup (int_of_u32 fd)).1.toList
      ∧ (netlog_sys_close cfg e fd s).2.match_socket = s.match_socket := by
  cases h1 : (e.sockfd_lookup (int_of_u32 fd)).1 with
  | none => simp [netlog_sys_close, h1, put_and_return]
  | some a =>
    cases h2 : (e.mem a).sk with
    | none => simp [netlog_sys_close, h1, h2, put_and_return]
    | some sk =>
      by_cases he : (e.sockfd_lookup (int_of_u32 fd)).2 < 0
      · simp [netlog_sys_close, h1, h2, he, put_and_return]
      · by_cases hu : cfg.PROBE_UDP = 0 <;>
          by_cases ht : sk.sk_protocol = IPPROTO_TCP ∧ ntohs sk.inet_dport ≠ 0 <;>
          by_cases hd : sk.sk_protocol = IPPROTO_UDP ∧ ntohs sk.inet_dport ≠ 0 <;>
          by_cases hw : whitelisted_here cfg e = true <;>
          simp [netlog_sys_close, h1, h2, he, hw, hu, ht, hd, put_and_return, udp_ne_tcp,
            udp_ne_tcp.symm, log_and_report_put, log_and_report_match_socket]

/-- C7: in the build of `netlog.h` (close probing on, UDP off), for a descriptor that resolves
to a socket with non-null `sk`, `netlog_sys_close` writes a record exactly when the protocol is
TCP, the remote port is non-zero and the caller is not whitelisted, and the record is the one
line `"<comm>[<pid>] TCP <local_ip>:<local_port> <-> <remote_ip>:<remote_port> (uid=<uid>)\n"`;
on a failed lookup or a NULL `sk` it writes nothing; in all cases it returns 0 and passes the
looked-up pointer to `sockfd_put` once when the lookup returned one (and never otherwise). -/
theorem netlog_sys_close_default (e : Env) (fd : Nat) (s : State) :
    (netlog_sys_close netlog_h e fd s).1 = 0
      ∧ (netlog_sys_close netlog_h e fd s).2.put = s.put ++ (e.sockfd_lookup (int_of_u32 fd)).1.toList
      ∧ (∀ (a : Nat) (sk : sock), (e.sockfd_lookup (int_of_u32 fd)).1 = some a → 0 ≤ (e.sockfd_lookup (int_of_u32 fd)).2 →
          (e.mem a).sk = some sk →
          ((sk.sk_protocol = IPPROTO_TCP ∧ ntohs sk.inet_dport ≠ 0 ∧ e.is_whitelisted e.current = 0 →
              (netlog_sys_close netlog_h e fd s).2.log
                = s.log ++ [e.current.comm ++ "[" ++ fmt_d e.current.pid ++ "] TCP "
                    ++ e.get_local_ip a ++ ":" ++ fmt_d (ntohs sk.inet_sport) ++ " <-> "
                    ++ e.get_remote_ip a ++ ":" ++ fmt_d (ntohs sk.inet_dport)
                    ++ " (uid=" ++ fmt_d (int_of_u32 e.current.uid) ++ ")\n"])
            ∧ (¬ (sk.sk_protocol = IPPROTO_TCP ∧ ntohs sk.inet_dport ≠ 0
                  ∧ e.is_whitelisted e.current = 0) →
              (netlog_sys_close netlog_h e fd s).2.log = s.log)))
      ∧ ((e.sockfd_lookup (int_of_u32 fd)).1 = none ∨ (e.sockfd_lookup (int_of_u32 fd)).2 < 0
            ∨ (∃ a, (e.sockfd_lookup (int_of_u32 fd)).1 = some a ∧ (e.mem a).sk = none) →
          (netlog_sys_close netlog_h e fd s).2.log = s.log) := by
  refine ⟨(netlog_sys_close_ret_put netlog_h e fd s).1, (netlog_sys_close_ret_put netlog_h e fd s).2.1,
    ?_, netlog_sys_close_silent netlog_h e fd s⟩
  intro a sk h1 he h2
  have hlog := netlog_sys_close_log netlog_h e fd a sk s h1 h2 (not_lt.mpr he)
  constructor
  · rintro ⟨hp, hd, hw⟩
    rw [hlog]
    simp [hp, hd, whitelisted_here_false netlog_h e hw, fmt_conn, String.append_assoc]
  · intro hn
    rw [hlog]
    by_cases ht : sk.sk_protocol = IPPROTO_TCP ∧ ntohs sk.inet_dport ≠ 0
    · have hw : e.is_whitelisted e.current ≠ 0 := fun h0 => hn ⟨ht.1, ht.2, h0⟩
      simp [ht, whitelisted_here_true netlog_h e (by decide) hw]
    · simp [ht, netlog_h]

/-- Scenario D: closing the socket connected to `203.0.113.9:22` writes the `<->` record and
releases the reference once; closing a descriptor that does not resolve writes nothing. -/
theorem netlog_sys_close_default_witness :
    (netlog_sys_close netlog_h ssh_env 3 State.init).2.log
        = ["ssh[812] TCP 10.0.0.5:40022 <-> 203.0.113.9:22 (uid=1000)\n"]
      ∧ (netlog_sys_close netlog_h ssh_env 3 State.init).2.put = [7]
      ∧ (netlog_sys_close netlog_h ssh_env 4 State.init).2.log = [] :=
  ⟨(((netlog_sys_close_default ssh_env 3 State.init).2.2.1 7
        ⟨AF_INET, IPPROTO_TCP, ⟨156, 86⟩, ⟨0, 22⟩⟩ rfl (by decide) rfl).1
      ⟨rfl, by decide, rfl⟩).trans (by decide),
    (netlog_sys_close_default ssh_env 3 State.init).2.1,
    (netlog_sys_close_default ssh_env 4 State.init).2.2.2 (Or.inl rfl)⟩

theorem post_connect_log (cfg : Config) (e : Env) (a : Nat) (sk : sock) (s : State)
    (h1 : s.match_socket e.current.pid = some a) (h2 : (e.mem a).sk = some sk) :
    (post_connect cfg e s).2.log
      = if wrong_family_or_protocol sk IPPROTO_TCP = true ∨ whitelisted_here cfg e = true then s.log
        else s.log ++ [fmt_conn "TCP" "->" e.current (e.get_local_ip a) (ntohs sk.inet_sport)
          (e.get_remote_ip a) (ntohs sk.inet_dport)] := by
  by_cases hf : wrong_family_or_protocol sk IPPROTO_TCP = true <;>
    by_cases hw : whitelisted_here cfg e = true <;>
    simp [post_connect, h1, h2, hf, hw, log_and_report_log]

theorem post_accept_log (cfg : Config) (e : Env) (fd : Int) (a : Nat) (sk : sock) (s : State)
    (h1 : (e.sockfd_lookup fd).1 = some a) (h2 : (e.mem a).sk = some sk)
    (he : ¬ (e.sockfd_lookup fd).2 < 0) :
    (post_accept cfg e fd s).2.log
      = if wrong_family_or_protocol sk IPPROTO_TCP = true ∨ whitelisted_here cfg e = true then s.log
        else s.log ++ [fmt_conn "TCP" "<-" e.current (e.get_local_ip a) (ntohs sk.inet_sport)
          (e.get_remote_ip a) (ntohs sk.inet_dport)] := by
  by_cases hf : wrong_family_or_protocol sk IPPROTO_TCP = true <;>
    by_cases hw : whitelisted_here cfg e = true <;>
    simp [post_accept, h1, h2, he, hf, hw, log_and_report_log, put_and_return_log]

/-- C8 at a failing input: for a TCP/IPv4 socket whose remote port is 0 and a caller that is
not whitelisted, `post_connect` and `post_accept` each write a record, with remote endpoint
`0.0.0.0:0`, where the claim says none is written.  At the same socket the sibling handler
`netlog_sys_close`, which tests `ntohs(DPORT) != 0`, writes nothing. -/
theorem post_connect_logs_remote_port_zero :
    (unconnected_env.mem 7).sk = some ⟨AF_INET, IPPROTO_TCP, ⟨199, 56⟩, ⟨0, 0⟩⟩
      ∧ ntohs ⟨0, 0⟩ = 0
      ∧ (post_connect netlog_h unconnected_env
          (netlog_inet_stream_connect unconnected_env (some 7) State.init).2).2.log
        = ["curl[4321] TCP 10.0.0.5:51000 -> 0.0.0.0:0 (uid=1000)\n"]
      ∧ (post_accept netlog_h unconnected_env 3 State.init).2.log
        = ["curl[4321] TCP 10.0.0.5:51000 <- 0.0.0.0:0 (uid=1000)\n"]
      ∧ (netlog_sys_close netlog_h unconnected_env 3 State.init).2.log = [] := by
  refine ⟨rfl, rfl, ?_, ?_, ?_⟩
  · rw [post_connect_log netlog_h unconnected_env 7 ⟨AF_INET, IPPROTO_TCP, ⟨199, 56⟩, ⟨0, 0⟩⟩ _ rfl rfl]
    decide
  · rw [post_accept_log netlog_h unconnected_env 3 7 ⟨AF_INET, IPPROTO_TCP, ⟨199, 56⟩, ⟨0, 0⟩⟩ _ rfl rfl
      (by decide)]
    decide
  · rw [netlog_sys_close_log netlog_h unconnected_env 3 7 ⟨AF_INET, IPPROTO_TCP, ⟨199, 56⟩, ⟨0, 0⟩⟩ _
      rfl rfl (by decide)]
    decide

/-- Where the remote-port test lives: for a TCP socket over IPv4/IPv6 whose remote port is 0
and a caller that is not whitelisted, `netlog_sys_close` writes nothing, while `post_connect`
and `post_accept`, which lack the test, each write one record with remote port field `0`. -/
theorem remote_port_zero_only_close_silent (cfg : Config) (e : Env) (a : Nat) (sk : sock) (s : State)
    (hsk : (e.mem a).sk = some sk)
    (hfam : sk.sk_family = AF_INET ∨ sk.sk_family = AF_INET6)
    (hproto : sk.sk_protocol = IPPROTO_TCP)
    (hport : ntohs sk.inet_dport = 0)
    (hwl : e.is_whitelisted e.current = 0) :
    (s.match_socket e.current.pid = some a →
        (post_connect cfg e s).2.log
          = s.log ++ [fmt_conn "TCP" "->" e.current (e.get_local_ip a) (ntohs sk.inet_sport)
              (e.get_remote_ip a) 0])
      ∧ (∀ fd : Int, (e.sockfd_lookup fd).1 = some a → 0 ≤ (e.sockfd_lookup fd).2 →
        (post_accept cfg e fd s).2.log
          = s.log ++ [fmt_conn "TCP" "<-" e.current (e.get_local_ip a) (ntohs sk.inet_sport)
              (e.get_remote_ip a) 0])
      ∧ (∀ fd : Nat, (e.sockfd_lookup (int_of_u32 fd)).1 = some a →
        (netlog_sys_close cfg e fd s).2.log = s.log) := by
  have hw := wrong_family_or_protocol_false sk IPPROTO_TCP hfam hproto
  have hl := whitelisted_here_false cfg e hwl
  refine ⟨?_, ?_, ?_⟩
  · intro h1
    rw [post_connect_log cfg e a sk s h1 hsk]
    simp [hw, hl, hport]
  · intro fd h1 he
    rw [post_accept_log cfg e fd a sk s h1 hsk (not_lt.mpr he)]
    simp [hw, hl, hport]
  · intro fd h1
    by_cases he : (e.sockfd_lookup (int_of_u32 fd)).2 < 0
    · exact netlog_sys_close_silent cfg e fd s (Or.inr (Or.inl he))
    · rw [netlog_sys_close_log cfg e fd a sk s h1 hsk he]
      simp [hport, hproto, udp_ne_tcp.symm]

/-- C9 at a failing input: `netlog_sys_close` has no address-family test, so closing a socket
whose family is neither `AF_INET` nor `AF_INET6` but whose protocol number is 6 writes a
`TCP` record. -/
theorem netlog_sys_close_logs_non_inet_family :
    (∃ sk, (hidp_env.mem 7).sk = some sk ∧ sk.sk_family ≠ AF_INET ∧ sk.sk_family ≠ AF_INET6)
      ∧ (netlog_sys_close netlog_h hidp_env 3 State.init).2.log
        = ["bluetoothd[950] TCP 0.0.0.0:17 <-> 0.0.0.0:19 (uid=0)\n"] := by
  refine ⟨⟨⟨31, 6, ⟨0, 17⟩, ⟨0, 19⟩⟩, rfl, by decide, by decide⟩, ?_⟩
  rw [netlog_sys_close_log netlog_h hidp_env 3 7 ⟨31, 6, ⟨0, 17⟩, ⟨0, 19⟩⟩ _ rfl rfl (by decide)]
  decide

/-- The handlers that test the address family (`post_connect`, `post_accept`,
`netlog_sys_bind`) write nothing for a socket whose family is neither `AF_INET` nor
`AF_INET6`. -/
theorem family_tested_handlers_silent (cfg : Config) (e : Env) (a : Nat) (sk : sock) (s : State)
    (hsk : (e.mem a).sk = some sk)
    (h4 : sk.sk_family ≠ AF_INET) (h6 : sk.sk_family ≠ AF_INET6) :
    (s.match_socket e.current.pid = some a → (post_connect cfg e s).2.log = s.log)
      ∧ (∀ fd : Int, (e.sockfd_lookup fd).1 = some a → (post_accept cfg e fd s).2.log = s.log)
      ∧ (∀ (fd : Int) (addr : sockaddr), (e.sockfd_lookup fd).1 = some a →
          (netlog_sys_bind cfg e fd addr s).2.log = s.log) := by
  have hw : ∀ proto, wrong_family_or_protocol sk proto = true := by
    intro proto
    simp [wrong_family_or_protocol, h4, h6]
  refine ⟨?_, ?_, ?_⟩
  · intro h1
    rw [post_connect_log cfg e a sk s h1 hsk]
    simp [hw]
  · intro fd h1
    by_cases he : (e.sockfd_lookup fd).2 < 0
    · simp [post_accept, h1, hsk, he, put_and_return_log]
    · rw [post_accept_log cfg e fd a sk s h1 hsk he]
      simp [hw]
  · intro fd addr h1
    by_cases he : (e.sockfd_lookup fd).2 < 0 <;>
      simp [netlog_sys_bind, h1, hsk, he, hw, put_and_return_log]

theorem netlog_inet_stream_connect_frame (e : Env) (sock : Option Nat) (t : State) (c : Nat)
    (h : c ≠ e.current.pid) :
    (netlog_inet_stream_connect e sock t).2.match_socket c = t.match_socket c := by
  simp [netlog_inet_stream_connect, Function.update_noteq h]

theorem post_connect_frame (cfg : Config) (e : Env) (t : State) (c : Nat)
    (h : c ≠ e.current.pid) :
    (post_connect cfg e t).2.match_socket c = t.match_socket c := by
  simp only [post_connect]
  split
  · simp [Function.update_noteq h]
  · split
    · simp [Function.update_noteq h]
    · split
      · simp [Function.update_noteq h]
      · split <;> simp [Function.update_noteq h, log_and_report_match_socket]

theorem deliver_all_frame (cfg : Config) (c : Nat) (evs : List (Env × ConnectEvent)) :
    ∀ s : State, (∀ ev ∈ evs, ev.1.current.pid ≠ c) →
      (deliver_all cfg evs s).match_socket c = s.match_socket c := by
  induction evs with
  | nil => intro s _; rfl
  | cons ev rest ih =>
    intro s h
    have hev : c ≠ ev.1.current.pid := fun hc => h ev (List.mem_cons_self _ _) hc.symm
    have hrest : ∀ x ∈ rest, x.1.current.pid ≠ c := fun x hx => h x (List.mem_cons_of_mem _ hx)
    have hstep : (deliver cfg s ev).match_socket c = s.match_socket c := by
      unfold deliver
      split
      · exact netlog_inet_stream_connect_frame ev.1 _ s c hev
      · exact post_connect_frame cfg ev.1 s c hev
    show (deliver_all cfg rest (deliver cfg s ev)).match_socket c = s.match_socket c
    rw [ih (deliver cfg s ev) hrest, hstep]

theorem post_connect_reads_own_slot (cfg : Config) (e : Env) (t t2 : State)
    (h : t.match_socket e.current.pid = t2.match_socket e.current.pid) :
    ∃ written : List String,
      (post_connect cfg e t).2.log = t.log ++ written
        ∧ (post_connect cfg e t2).2.log = t2.log ++ written := by
  cases h1 : t.match_socket e.current.pid with
  | none =>
    refine ⟨[], ?_, ?_⟩
    · rw [post_connect_empty cfg e t h1]; simp
    · rw [post_connect_empty cfg e t2 (h ▸ h1)]; simp
  | some a =>
    have h1b : t2.match_socket e.current.pid = some a := h ▸ h1
    cases h2 : (e.mem a).sk with
    | none => exact ⟨[], by simp [post_connect, h1, h2], by simp [post_connect, h1b, h2]⟩
    | some sk =>
      rw [post_connect_log cfg e a sk t h1 h2, post_connect_log cfg e a sk t2 h1b h2]
      split
      · exact ⟨[], by simp, by simp⟩
      · exact ⟨_, rfl, rfl⟩

/-- C10: the connect handlers running in a context touch only that context's slot of
`match_socket`: every other slot is left unchanged and the record `post_connect` writes
depends on the table through its own slot only.  Hence any finite sequence of connect entry
and return events of other contexts, delivered between the entry event of a context with
socket `S` and its return event, leaves `S` in the slot, and the return handler writes the
same record as without the interleaved events. -/
theorem connect_slots_disjoint (cfg : Config) (e0 e1 : Env) (S : Option Nat)
    (evs : List (Env × ConnectEvent)) (s : State)
    (hctx : e0.current.pid = e1.current.pid)
    (hother : ∀ ev ∈ evs, ev.1.current.pid ≠ e1.current.pid) :
    (∀ (e : Env) (sock : Option Nat) (t : State) (c : Nat), c ≠ e.current.pid →
        (netlog_inet_stream_connect e sock t).2.match_socket c = t.match_socket c
          ∧ (post_connect cfg e t).2.match_socket c = t.match_socket c)
      ∧ (∀ (e : Env) (t t2 : State),
          t.match_socket e.current.pid = t2.match_socket e.current.pid → t.log = t2.log →
          (post_connect cfg e t).2.log = (post_connect cfg e t2).2.log)
      ∧ (deliver_all cfg evs (netlog_inet_stream_connect e0 S s).2).match_socket e1.current.pid = S
      ∧ ∃ written : List String,
          (post_connect cfg e1 (netlog_inet_stream_connect e0 S s).2).2.log = s.log ++ written
            ∧ (post_connect cfg e1 (deliver_all cfg evs (netlog_inet_stream_connect e0 S s).2)).2.log
              = (deliver_all cfg evs (netlog_inet_stream_connect e0 S s).2).log ++ written := by
  have hslot : (deliver_all cfg evs (netlog_inet_stream_connect e0 S s).2).match_socket e1.current.pid
      = (netlog_inet_stream_connect e0 S s).2.match_socket e1.current.pid :=
    deliver_all_frame cfg e1.current.pid evs _ hother
  refine ⟨?_, ?_, ?_, ?_⟩
  · intro e sock t c hc
    exact ⟨netlog_inet_stream_connect_frame e sock t c hc, post_connect_frame cfg e t c hc⟩
  · intro e t t2 hs hl
    obtain ⟨w, hw1, hw2⟩ := post_connect_reads_own_slot cfg e t t2 hs
    rw [hw1, hw2, hl]
  · rw [hslot]
    simp [netlog_inet_stream_connect, hctx]
  · exact post_connect_reads_own_slot cfg e1 _ _ hslot.symm

/-- The entry and return events of `ssh` (pid 812), delivered between the entry and the return
event of `curl` (pid 4321), leave the socket of `curl` in its slot. -/
theorem connect_slots_disjoint_witness :
    (deliver_all netlog_h [(ssh_env, ConnectEvent.entry (some 9)), (ssh_env, ConnectEvent.ret)]
      (netlog_inet_stream_connect curl_env (some 7) State.init).2).match_socket 4321 = some 7 :=
  (connect_slots_disjoint netlog_h curl_env curl_env (some 7)
    [(ssh_env, ConnectEvent.entry (some 9)), (ssh_env, ConnectEvent.ret)] State.init rfl
    (by
      intro ev hev
      simp only [List.mem_cons, List.mem_singleton, List.not_mem_nil, or_false] at hev
      rcases hev with rfl | rfl <;> decide)).2.2.1

theorem whitelist_loop_keeps (b : Boot) (paths : List String) :
    ∀ m : Module,
      (paths.foldl (whitelist_one b) m).planted = m.planted
        ∧ (paths.foldl (whitelist_one b) m).logger = m.logger
        ∧ registrations (paths.foldl (whitelist_one b) m).calls = registrations m.calls := by
  induction paths with
  | nil => intro m; exact ⟨rfl, rfl, rfl⟩
  | cons path rest ih =>
    intro m
    have hstep : (whitelist_one b m path).planted = m.planted
        ∧ (whitelist_one b m path).logger = m.logger
        ∧ registrations (whitelist_one b m path).calls = registrations m.calls := by
      simp only [whitelist_one]
      split <;> simp [whitelist, printk, registrations, List.filterMap_append]
    obtain ⟨h1, h2, h3⟩ := ih (whitelist_one b m path)
    exact ⟨h1.trans hstep.1, h2.trans hstep.2.1, h3.trans hstep.2.2⟩

theorem plant_probes_ret (cfg : Config) (b : Boot) (m : Module) :
    (plant_probes cfg b m).1
      = if b.LOG_FAILED b.init_logger = true then LOG_FAILURE
        else match (stages cfg).find? (fun p => decide (b.register p < 0)) with
          | none => 0
          | some p => failure_code p := by
  by_cases hl : b.LOG_FAILED b.init_logger = true
  · simp [plant_probes, init_logger, hl]
  · by_cases hc : cfg.PROBE_CONNECTION_CLOSE = 0 <;> by_cases hu : cfg.PROBE_UDP = 0 <;>
      by_cases h1 : b.register Probe.connect_jprobe < 0 <;>
      by_cases h2 : b.register Probe.connect_kretprobe < 0 <;>
      by_cases h3 : b.register Probe.accept_kretprobe < 0 <;>
      by_cases h4 : b.register Probe.tcp_close_jprobe < 0 <;>
      by_cases h5 : b.register Probe.bind_jprobe < 0 <;>
      simp [plant_probes, init_logger, register_jprobe, register_kretprobe, stages, failure_code,
        List.find?, hl, hc, hu, h1, h2, h3, h4, h5]

theorem registrations_nil : registrations [] = [] := rfl

theorem registrations_append (c d : List Call) :
    registrations (c ++ d) = registrations c ++ registrations d := by
  simp [registrations, List.filterMap_append]

theorem registrations_cons (c : Call) (d : List Call) :
    registrations (c :: d)
      = (match c with
        | Call.register_jprobe p => [p]
        | Call.register_kretprobe p => [p]
        | _ => []) ++ registrations d := by
  cases c <;> simp [registrations, List.filterMap_cons]

theorem plant_probes_registrations (cfg : Config) (b : Boot) (m : Module)
    (hl : b.LOG_FAILED b.init_logger = false) :
    registrations (plant_probes cfg b m).2.calls
      = registrations m.calls ++ (stages cfg).takeWhile (fun p => decide (0 ≤ b.register p))
          ++ ((stages cfg).find? (fun p => decide (b.register p < 0))).toList := by
  have hw := fun m0 => (whitelist_loop_keeps b b.procs_to_whitelist m0).2.2
  by_cases hc : cfg.PROBE_CONNECTION_CLOSE = 0 <;> by_cases hu : cfg.PROBE_UDP = 0 <;>
    by_cases hwl : cfg.WHITELISTING = 0 <;>
    (by_cases h1 : b.register Probe.connect_jprobe < 0
     · simp [plant_probes, init_logger, register_jprobe, register_kretprobe, stages,
        List.find?, List.takeWhile, hl, hc, hu, hwl, h1, hw, netlog_exit, unplant_all,
        unregister_jprobe, unregister_kretprobe, destroy_logger, printk, registrations_append,
        registrations_cons, registrations_nil, not_le.mpr, not_lt.mp]
     by_cases h2 : b.register Probe.connect_kretprobe < 0
     · simp [plant_probes, init_logger, register_jprobe, register_kretprobe, stages,
        List.find?, List.takeWhile, hl, hc, hu, hwl, h1, h2, hw, netlog_exit, unplant_all,
        unregister_jprobe, unregister_kretprobe, destroy_logger, printk, registrations_append,
        registrations_cons, registrations_nil, not_le.mpr, not_lt.mp]
     by_cases h3 : b.register Probe.accept_kretprobe < 0
     · simp [plant_probes, init_logger, register_jprobe, register_kretprobe, stages,
        List.find?, List.takeWhile, hl, hc, hu, hwl, h1, h2, h3, hw, netlog_exit, unplant_all,
        unregister_jprobe, unregister_kretprobe, destroy_logger, printk, registrations_append,
        registrations_cons, registrations_nil, not_le.mpr, not_lt.mp]
     by_cases h4 : b.register Probe.tcp_close_jprobe < 0
     · by_cases h5 : b.register Probe.bind_jprobe < 0 <;>
       simp [plant_probes, init_logger, register_jprobe, register_kretprobe, stages,
        List.find?, List.takeWhile, hl, hc, hu, hwl, h1, h2, h3, h4, h5, hw, netlog_exit, unplant_all,
        unregister_jprobe, unregister_kretprobe, destroy_logger, printk, registrations_append,
        registrations_cons, registrations_nil, not_le.mpr, not_lt.mp]
     by_cases h5 : b.register Probe.bind_jprobe < 0 <;>
       simp [plant_probes, init_logger, register_jprobe, register_kretprobe, stages,
        List.find?, List.takeWhile, hl, hc, hu, hwl, h1, h2, h3, h4, h5, hw, netlog_exit, unplant_all,
        unregister_jprobe, unregister_kretprobe, destroy_logger, printk, registrations_append,
        registrations_cons, registrations_nil, not_le.mpr, not_lt.mp])

theorem plant_probes_state (cfg : Config) (b : Boot) (m : Module)
    (hm : m.planted = []) (hl : b.LOG_FAILED b.init_logger = false) :
    (plant_probes cfg b m).2.planted
        = (match (stages cfg).find? (fun p => decide (b.register p < 0)) with
          | none => (stages cfg).reverse
          | some _ => [])
      ∧ (plant_probes cfg b m).2.logger
        = (match (stages cfg).find? (fun p => decide (b.register p < 0)) with
          | none => true
          | some _ => false) := by
  have hw1 := fun m0 => (whitelist_loop_keeps b b.procs_to_whitelist m0).1
  have hw2 := fun m0 => (whitelist_loop_keeps b b.procs_to_whitelist m0).2.1
  by_cases hc : cfg.PROBE_CONNECTION_CLOSE = 0 <;> by_cases hu : cfg.PROBE_UDP = 0 <;>
    by_cases hwl : cfg.WHITELISTING = 0 <;>
    (by_cases h1 : b.register Probe.connect_jprobe < 0
     · simp [plant_probes, init_logger, register_jprobe, register_kretprobe, stages,
        List.find?, hm, hl, hc, hu, hwl, h1, hw1, hw2, netlog_exit, unplant_all,
        unregister_jprobe, unregister_kretprobe, destroy_logger, printk, List.filter]
     by_cases h2 : b.register Probe.connect_kretprobe < 0
     · simp [plant_probes, init_logger, register_jprobe, register_kretprobe, stages,
        List.find?, hm, hl, hc, hu, hwl, h1, h2, hw1, hw2, netlog_exit, unplant_all,
        unregister_jprobe, unregister_kretprobe, destroy_logger, printk, List.filter]
     by_cases h3 : b.register Probe.accept_kretprobe < 0
     · simp [plant_probes, init_logger, register_jprobe, register_kretprobe, stages,
        List.find?, hm, hl, hc, hu, hwl, h1, h2, h3, hw1, hw2, netlog_exit, unplant_all,
        unregister_jprobe, unregister_kretprobe, destroy_logger, printk, List.filter]
     by_cases h4 : b.register Probe.tcp_close_jprobe < 0
     · by_cases h5 : b.register Probe.bind_jprobe < 0 <;>
       simp [plant_probes, init_logger, register_jprobe, register_kretprobe, stages,
        List.find?, hm, hl, hc, hu, hwl, h1, h2, h3, h4, h5, hw1, hw2, netlog_exit, unplant_all,
        unregister_jprobe, unregister_kretprobe, destroy_logger, printk, List.filter]
     by_cases h5 : b.register Probe.bind_jprobe < 0 <;>
       simp [plant_probes, init_logger, register_jprobe, register_kretprobe, stages,
        List.find?, hm, hl, hc, hu, hwl, h1, h2, h3, h4, h5, hw1, hw2, netlog_exit, unplant_all,
        unregister_jprobe, unregister_kretprobe, destroy_logger, printk, List.filter])

theorem netlog_exit_calls (cfg : Config) (m : Module) :
    (netlog_exit cfg m).calls = m.calls ++ (netlog_exit cfg Module.init).calls := by
  by_cases hc : cfg.PROBE_CONNECTION_CLOSE = 0 <;> by_cases hu : cfg.PROBE_UDP = 0 <;>
    simp [netlog_exit, unplant_all, unregister_jprobe, unregister_kretprobe, destroy_logger, printk,
      Module.init, hc, hu]

theorem plant_probes_failure_exit (cfg : Config) (b : Boot) (m : Module) (p : Probe)
    (hl : b.LOG_FAILED b.init_logger = false)
    (hf : (stages cfg).find? (fun q => decide (b.register q < 0)) = some p) :
    ∃ m1 : Module, (plant_probes cfg b m).2 = netlog_exit cfg m1 := by
  by_cases h1 : b.register Probe.connect_jprobe < 0
  · exact ⟨_, by simp [plant_probes, init_logger, register_jprobe, hl, h1]; rfl⟩
  by_cases h2 : b.register Probe.connect_kretprobe < 0
  · exact ⟨_, by simp [plant_probes, init_logger, register_jprobe, register_kretprobe, hl, h1, h2]; rfl⟩
  by_cases h3 : b.register Probe.accept_kretprobe < 0
  · exact ⟨_, by simp [plant_probes, init_logger, register_jprobe, register_kretprobe, hl, h1, h2, h3]; rfl⟩
  by_cases hc : cfg.PROBE_CONNECTION_CLOSE ≠ 0 ∧ b.register Probe.tcp_close_jprobe < 0
  · exact ⟨_, by simp [plant_probes, init_logger, register_jprobe, register_kretprobe, hl, h1, h2, h3,
      hc.1, hc.2]; rfl⟩
  by_cases hu : cfg.PROBE_UDP ≠ 0 ∧ b.register Probe.bind_jprobe < 0
  · by_cases hcc : cfg.PROBE_CONNECTION_CLOSE = 0
    · exact ⟨_, by simp [plant_probes, init_logger, register_jprobe, register_kretprobe, hl, h1, h2, h3,
        hcc, hu.1, hu.2]; rfl⟩
    · have h4 : ¬ b.register Probe.tcp_close_jprobe < 0 := fun h => hc ⟨hcc, h⟩
      exact ⟨_, by simp [plant_probes, init_logger, register_jprobe, register_kretprobe, hl, h1, h2, h3,
        hcc, h4, hu.1, hu.2]; rfl⟩
  · exfalso
    have hmem := List.mem_of_find?_eq_some hf
    have hneg : b.register p < 0 := by simpa using List.find?_some hf
    simp only [stages, List.mem_append, List.mem_cons, List.mem_singleton, List.not_mem_nil,
      or_false] at hmem
    rcases hmem with ((rfl | rfl | rfl) | hm) | hm
    · exact h1 hneg
    · exact h2 hneg
    · exact h3 hneg
    · split at hm
      · simp only [List.mem_singleton] at hm
        subst hm
        exact hc ⟨by assumption, hneg⟩
      · simp at hm
    · split at hm
      · simp only [List.mem_singleton] at hm
        subst hm
        exact hu ⟨by assumption, hneg⟩
      · simp at hm

theorem failure_code_neg (p : Probe) : failure_code p < 0 := by
  cases p <;> decide

theorem failure_code_classes (p q : Probe) :
    failure_code p = failure_code q ↔
      p = q ∨ (p ∈ [Probe.connect_jprobe, Probe.connect_kretprobe]
        ∧ q ∈ [Probe.connect_jprobe, Probe.connect_kretprobe]) := by
  cases p <;> cases q <;> decide

theorem find_failure_of_mem (cfg : Config) (b : Boot) (p : Probe)
    (hp : p ∈ stages cfg) (hfail : b.register p < 0) :
    ∃ q, (stages cfg).find? (fun q => decide (b.register q < 0)) = some q := by
  cases hf : (stages cfg).find? (fun q => decide (b.register q < 0)) with
  | some q => exact ⟨q, rfl⟩
  | none =>
    have := List.find?_eq_none.mp hf p hp
    simp [hfail] at this

theorem find_failure_none (cfg : Config) (b : Boot) (h : ∀ q ∈ stages cfg, 0 ≤ b.register q) :
    (stages cfg).find? (fun q => decide (b.register q < 0)) = none := by
  apply List.find?_eq_none.mpr
  intro q hq
  simpa using h q hq

/-- C5: when the logging facility came up and the registration of some stage fails,
`plant_probes` returns a negative status; before it returns it has run the whole of
`netlog_exit` (every unregistration, then `destroy_logger`), so that no probe is installed and
the logging facility is down, as before the call; and a following `plant_probes` in which every
collaborator call succeeds returns 0 with exactly the compiled-in probes installed. -/
theorem plant_probes_rollback (cfg : Config) (b : Boot) (m : Module) (p : Probe)
    (hplanted : m.planted = []) (hlogger : m.logger = false)
    (hl : b.LOG_FAILED b.init_logger = false)
    (hp : p ∈ stages cfg) (hfail : b.register p < 0) :
    (plant_probes cfg b m).1 < 0
      ∧ (plant_probes cfg b m).2.planted = m.planted
      ∧ (plant_probes cfg b m).2.logger = m.logger
      ∧ (netlog_exit cfg Module.init).calls <:+ (plant_probes cfg b m).2.calls
      ∧ ∀ b2 : Boot, b2.LOG_FAILED b2.init_logger = false → (∀ q, 0 ≤ b2.register q) →
          (plant_probes cfg b2 (plant_probes cfg b m).2).1 = 0
            ∧ (∀ q, q ∈ (plant_probes cfg b2 (plant_probes cfg b m).2).2.planted ↔ q ∈ stages cfg)
            ∧ (plant_probes cfg b2 (plant_probes cfg b m).2).2.logger = true := by
  obtain ⟨q, hq⟩ := find_failure_of_mem cfg b p hp hfail
  have hst := plant_probes_state cfg b m hplanted hl
  rw [hq] at hst
  have hret := plant_probes_ret cfg b m
  rw [hq] at hret
  simp only [hl, Bool.false_eq_true, if_false] at hret
  refine ⟨?_, ?_, ?_, ?_, ?_⟩
  · rw [hret]
    exact failure_code_neg q
  · rw [hst.1, hplanted]
  · rw [hst.2, hlogger]
  · obtain ⟨m1, hm1⟩ := plant_probes_failure_exit cfg b m q hl hq
    rw [hm1, netlog_exit_calls cfg m1]
    exact List.suffix_append _ _
  · intro b2 hl2 hok
    have hnone := find_failure_none cfg b2 (fun q _ => hok q)
    have hst2 := plant_probes_state cfg b2 (plant_probes cfg b m).2 hst.1 hl2
    rw [hnone] at hst2
    have hret2 := plant_probes_ret cfg b2 (plant_probes cfg b m).2
    rw [hnone] at hret2
    simp only [hl2, Bool.false_eq_true, if_false] at hret2
    refine ⟨hret2, ?_, hst2.2⟩
    intro r
    rw [hst2.1, List.mem_reverse]

/-- With the accept probe failing at module load: status `ACCEPT_PROBE_FAILED`, no probe left
installed, logging facility down. -/
theorem plant_probes_rollback_witness :
    (plant_probes netlog_h accept_busy Module.init).1 < 0
      ∧ (plant_probes netlog_h accept_busy Module.init).2.planted = []
      ∧ (plant_probes netlog_h accept_busy Module.init).2.logger = false :=
  ⟨(plant_probes_rollback netlog_h accept_busy Module.init Probe.accept_kretprobe rfl rfl rfl
      (by decide) (by decide)).1,
    (plant_probes_rollback netlog_h accept_busy Module.init Probe.accept_kretprobe rfl rfl rfl
      (by decide) (by decide)).2.1,
    (plant_probes_rollback netlog_h accept_busy Module.init Probe.accept_kretprobe rfl rfl rfl
      (by decide) (by decide)).2.2.1⟩

/-- C6: `plant_probes` returns 0 exactly when the logging facility comes up and every
compiled-in registration succeeds.  Otherwise it returns the code of the first failing stage
and attempts no later registration: `LOG_FAILURE` when `init_logger` fails (no registration
attempted), and after a failed registration `CONNECT_PROBE_FAILED` for either connect probe,
`ACCEPT_PROBE_FAILED`, `CLOSE_PROBE_FAILED` or `BIND_PROBE_FAILED` for the accept, close or
bind probe.  Two failed registrations share a code only when both are connect probes; the
five codes are pairwise distinct and negative, and the outcomes of `whitelist` and the list of
paths have no influence on the value returned. -/
theorem plant_probes_status (cfg : Config) (b : Boot) (m : Module) :
    ((plant_probes cfg b m).1 = 0 ↔
        b.LOG_FAILED b.init_logger = false ∧ ∀ p ∈ stages cfg, 0 ≤ b.register p)
      ∧ (b.LOG_FAILED b.init_logger = true →
          (plant_probes cfg b m).1 = LOG_FAILURE
            ∧ registrations (plant_probes cfg b m).2.calls = registrations m.calls)
      ∧ (∀ p : Probe, b.LOG_FAILED b.init_logger = false →
          (stages cfg).find? (fun q => decide (b.register q < 0)) = some p →
          (plant_probes cfg b m).1 = failure_code p
            ∧ registrations (plant_probes cfg b m).2.calls
              = registrations m.calls
                ++ (stages cfg).takeWhile (fun q => decide (0 ≤ b.register q)) ++ [p])
      ∧ (failure_code Probe.connect_jprobe = CONNECT_PROBE_FAILED
          ∧ failure_code Probe.connect_kretprobe = CONNECT_PROBE_FAILED
          ∧ failure_code Probe.accept_kretprobe = ACCEPT_PROBE_FAILED
          ∧ failure_code Probe.tcp_close_jprobe = CLOSE_PROBE_FAILED
          ∧ failure_code Probe.bind_jprobe = BIND_PROBE_FAILED)
      ∧ (∀ p q : Probe, failure_code p = failure_code q ↔
          p = q ∨ (p ∈ [Probe.connect_jprobe, Probe.connect_kretprobe]
            ∧ q ∈ [Probe.connect_jprobe, Probe.connect_kretprobe]))
      ∧ [LOG_FAILURE, CONNECT_PROBE_FAILED, ACCEPT_PROBE_FAILED, CLOSE_PROBE_FAILED,
          BIND_PROBE_FAILED].Nodup
      ∧ (∀ c ∈ [LOG_FAILURE, CONNECT_PROBE_FAILED, ACCEPT_PROBE_FAILED, CLOSE_PROBE_FAILED,
          BIND_PROBE_FAILED], c < 0)
      ∧ (∀ b2 : Boot, b2.init_logger = b.init_logger → b2.LOG_FAILED = b.LOG_FAILED →
          b2.register = b.register → (plant_probes cfg b2 m).1 = (plant_probes cfg b m).1) := by
  have hret := plant_probes_ret cfg b m
  refine ⟨?_, ?_, ?_, ⟨rfl, rfl, rfl, rfl, rfl⟩, failure_code_classes, by decide, by decide, ?_⟩
  · constructor
    · intro h0
      by_cases hl : b.LOG_FAILED b.init_logger = true
      · rw [hret, if_pos hl] at h0
        exact absurd h0 (by decide)
      · have hl2 : b.LOG_FAILED b.init_logger = false := by simpa using hl
        refine ⟨hl2, ?_⟩
        intro p hp
        by_contra hneg
        obtain ⟨q, hq⟩ := find_failure_of_mem cfg b p hp (not_le.mp hneg)
        rw [hret, if_neg hl, hq] at h0
        exact absurd h0 (ne_of_lt (failure_code_neg q))
    · rintro ⟨hl, hok⟩
      rw [hret, find_failure_none cfg b hok]
      simp [hl]
  · intro hl
    refine ⟨by rw [hret, if_pos hl], ?_⟩
    simp [plant_probes, init_logger, hl, printk, registrations_append, registrations_cons,
      registrations_nil]
  · intro p hl hf
    refine ⟨by rw [hret, hf]; simp [hl], ?_⟩
    rw [plant_probes_registrations cfg b m hl, hf]
    rfl
  · intro b2 h1 h2 h3
    rw [plant_probes_ret cfg b2 m, hret, h1, h2, h3]

/-- The accept probe failing at module load: the value returned is `ACCEPT_PROBE_FAILED` (-2)
and the registrations attempted are the two connect probes and the accept probe, in order. -/
theorem plant_probes_status_witness :
    (plant_probes netlog_h accept_busy Module.init).1 = -2
      ∧ registrations (plant_probes netlog_h accept_busy Module.init).2.calls
        = [Probe.connect_jprobe, Probe.connect_kretprobe, Probe.accept_kretprobe] :=
  ⟨((plant_probes_status netlog_h accept_busy Module.init).2.2.1 Probe.accept_kretprobe rfl
      (by decide)).1,
    ((plant_probes_status netlog_h accept_busy Module.init).2.2.1 Probe.accept_kretprobe rfl
      (by decide)).2.trans (by decide)⟩

end Netlog
